import Mathlib

/-!
Shallow embedding of `src/api/app.py` (xray-reality-vpn management API).

The persisted artifacts are modelled as explicit state:
  * the credential table file `.user_uuids` as an association list
    `username ↦ uuid` (Python `dict` semantics: assignment keeps the
    position of an existing key, otherwise appends);
  * the disabled-set file `.disabled_users` as its list of lines;
  * the xray `config.json` as `Option Config` (`none` = the JSON cannot
    be parsed, so `json.loads` raises — "ConfigCorrupt"); fields of the
    artifact other than the ones the code touches are carried verbatim
    by the record update and are not repeated here;
  * the subscription directory as an association list
    `token ↦ decoded descriptor` (the source stores the base64 encoding
    and decodes on read; encode/decode cancel, and files that fail to
    decode are skipped by the scan, so only decodable descriptors are
    modelled);
  * `totals.json`, `stats.json`, `history.json` as `Option` of their
    parsed content (`none` = unparseable).

Each endpoint is a pure function from inputs and pre-state to
`Except ApiErr result × St`.  A Python exception that escapes the
handler is `.error .exn` (Flask surfaces it as a 5xx); the post-state
paired with it reflects exactly the file writes performed before the
raise.  Randomness (`uuid.uuid4()`, `secrets.token_hex`) is passed in
as the `freshUuid` / `freshToken` parameters.  `restart_xray` (an
external side effect on the container runtime) and the auth decorator
are outside the model.  Python's Unicode `str.isalnum` is modelled on
the ASCII alphanumerics via `Char.isAlphanum`.
-/

deriving instance DecidableEq for Except

namespace XrayVpn

/-- Python `str.strip()` on the ASCII whitespace characters: drop leading
and trailing whitespace. -/
def pyStrip (s : String) : String :=
  ⟨((s.data.dropWhile Char.isWhitespace).reverse.dropWhile Char.isWhitespace).reverse⟩

/-- Lexicographic code-point comparison of strings, Python's `<=` used by
`sorted`. -/
def charsLE : List Char → List Char → Bool
  | [], _ => true
  | _ :: _, [] => false
  | a :: as, b :: bs => decide (a < b) || (a == b && charsLE as bs)

def strLE (a b : String) : Bool :=
  charsLE a.data b.data

/-- Insert into a sorted list of strings. -/
def insertSorted (x : String) : List String → List String
  | [] => [x]
  | y :: ys => if strLE x y then x :: y :: ys else y :: insertSorted x ys

/-- `sorted(...)` over strings. -/
def sortStrings : List String → List String
  | [] => []
  | x :: xs => insertSorted x (sortStrings xs)

/-- Deployment environment variables used by the handlers. -/
structure Env where
  domain : String
  server_address : String
  sub_port : String
  reality_public_key : String
deriving DecidableEq

/-- One entry of a vless inbound's `settings.clients` list, as written by
`rebuild_xray_config`. -/
structure Client where
  id : String
  flow : String
  email : String
  level : Nat
deriving DecidableEq

/-- `streamSettings.realitySettings` of an inbound. -/
structure RealitySettings where
  dest : String
  serverNames : List String
  shortIds : List String
deriving DecidableEq

/-- An inbound of `config.json`: its protocol, optional reality settings and
its `settings.clients` list. -/
structure Inbound where
  protocol : String
  realitySettings : Option RealitySettings
  clients : List Client
deriving DecidableEq

/-- The parsed xray configuration artifact. -/
structure Config where
  inbounds : List Inbound
deriving DecidableEq

/-- One record of `totals.json`: traffic counters and last-seen stamp. -/
structure TrafficRecord where
  up : Nat
  dn : Nat
  last_seen : String
deriving DecidableEq

/-- One record of `stats.json`'s `users` map. -/
structure StatsRec where
  ips_now : Nat
  ips_max_24h : Nat
deriving DecidableEq

/-- The persisted state the API operates on. -/
structure St where
  uuids : List (String × String)
  disabledFile : List String
  configArt : Option Config
  subs : List (String × String)
  totalsArt : Option (List (String × TrafficRecord))
  statsArt : Option (List (String × StatsRec))
  historyArt : Option (List (List (String × TrafficRecord)))
deriving DecidableEq

/-- Error outcomes of a handler, by HTTP status. -/
inductive ApiErr where
  | invalidInput (msg : String)
  | notFound
  | conflict
  | exn
deriving DecidableEq

/-- `d[k]` of a Python dict modelled as an association list. -/
def dictGet {α : Type} (d : List (String × α)) (k : String) : Option α :=
  (d.find? (fun p => p.1 == k)).map (fun p => p.2)

/-- `d[k] = v`: update in place if the key is present, else append. -/
def dictSet {α : Type} (d : List (String × α)) (k : String) (v : α) :
    List (String × α) :=
  if d.any (fun p => p.1 == k) then
    d.map (fun p => if p.1 == k then (k, v) else p)
  else d ++ [(k, v)]

/-- `del d[k]` / `d.pop(k, None)`. -/
def dictErase {α : Type} (d : List (String × α)) (k : String) :
    List (String × α) :=
  d.filter (fun p => p.1 != k)

/-- `read_disabled`: the file's lines as a Python set (membership view). -/
def read_disabled (file : List String) : List String :=
  file.dedup

/-- `write_disabled`: the set written back as sorted lines. -/
def write_disabled (s : List String) : List String :=
  sortStrings s

/-- `set.add`. -/
def setAdd (s : List String) (x : String) : List String :=
  if s.contains x then s else s ++ [x]

/-- `set.discard`. -/
def setDiscard (s : List String) (x : String) : List String :=
  s.filter (fun y => y != x)

/-- `read_totals`: an unparseable or absent file reads as `{}`. -/
def readTotals (art : Option (List (String × TrafficRecord))) :
    List (String × TrafficRecord) :=
  art.getD []

/-- Substring test, Python's `needle in hay`. -/
def strContains (hay needle : String) : Bool :=
  hay.toList.tails.any (fun t => List.isPrefixOf needle.toList t)

/-- `find_subscription_token`: look up the user's uuid, then return the first
token whose decoded descriptor contains it. -/
def find_subscription_token (s : St) (username : String) : Option String :=
  match dictGet s.uuids username with
  | none => none
  | some uid => ((s.subs.find? (fun p => strContains p.2 uid)).map (fun p => p.1))

/-- The subscription URL for a token: https with the domain when one is
configured, plain http with the raw address otherwise. -/
def sub_url_for (env : Env) (token : String) : String :=
  if env.domain != "" then
    "https://" ++ env.domain ++ ":" ++ env.sub_port ++ "/sub/" ++ token
  else
    "http://" ++ env.server_address ++ ":" ++ env.sub_port ++ "/sub/" ++ token

/-- `get_subscription_url`. -/
def get_subscription_url (env : Env) (s : St) (username : String) :
    Option String :=
  (find_subscription_token s username).map (sub_url_for env)

/-- The vless link text assembled by `build_vless_link`. -/
def mkVlessLink (env : Env) (username uuid sni sid : String) : String :=
  "vless://" ++ uuid ++ "@" ++ env.server_address ++ ":443" ++
    "?security=reality&encryption=none&flow=xtls-rprx-vision" ++
    "&pbk=" ++ env.reality_public_key ++ "&fp=chrome&sni=" ++ sni ++
    "&sid=" ++ sid ++ "&type=tcp" ++ "#" ++ username

/-- `build_vless_link`: reads the config (raising on a corrupt artifact),
returns a link built from the first inbound that has reality settings, or
`none` when no inbound does. -/
def build_vless_link (env : Env) (username uuid : String)
    (art : Option Config) : Except Unit (Option String) :=
  match art with
  | none => .error ()
  | some cfg =>
    match cfg.inbounds.find? (fun ib => ib.realitySettings.isSome) with
    | none => .ok none
    | some ib =>
      let rs := ib.realitySettings.getD ⟨"", [], []⟩
      .ok (some (mkVlessLink env username uuid
        (rs.serverNames.headD "") (rs.shortIds.headD "")))

/-- `create_subscription_file`: writes the encoded link under a fresh token;
returns no token (and writes nothing) when no link could be built. -/
def create_subscription_file (env : Env) (freshToken : String)
    (username uuid : String) (art : Option Config)
    (subs : List (String × String)) :
    Except Unit (Option String × List (String × String)) :=
  match build_vless_link env username uuid art with
  | .error _ => .error ()
  | .ok none => .ok (none, subs)
  | .ok (some vless) => .ok (some freshToken, subs ++ [(freshToken, vless)])

/-- The client list `rebuild_xray_config` computes from the credential table
minus the disabled set. -/
def activeClients (uuids : List (String × String)) (disabled : List String) :
    List Client :=
  (uuids.filter (fun p => !(disabled.contains p.1))).map
    (fun p => { id := p.2, flow := "xtls-rprx-vision", email := p.1, level := 0 })

/-- Replace the client list of the first inbound whose protocol is `vless`;
with no such inbound the list is returned unchanged (the source's `for`/
`break` loop simply finds nothing). -/
def setFirstVlessClients : List Inbound → List Client → List Inbound
  | [], _ => []
  | ib :: rest, cs =>
    if ib.protocol == "vless" then { ib with clients := cs } :: rest
    else ib :: setFirstVlessClients rest cs

/-- `rebuild_xray_config`: parses the artifact (raising when it is corrupt),
installs the active-client list into the first vless inbound, and writes the
artifact back. -/
def rebuild_xray_config (uuids : List (String × String))
    (disabled : List String) (art : Option Config) : Except Unit Config :=
  match art with
  | none => .error ()
  | some cfg =>
    .ok { cfg with
          inbounds := setFirstVlessClients cfg.inbounds (activeClients uuids disabled) }

/-- The client list of the first vless inbound, when one exists. -/
def firstVlessClients (cfg : Config) : Option (List Client) :=
  (cfg.inbounds.find? (fun ib => ib.protocol == "vless")).map (fun ib => ib.clients)

/-- The character-level part of `create_user`'s username check:
`username.replace("_","").replace("-","").isalnum()` — drop every `_` and
`-`, and require the remainder to be nonempty and all alphanumeric. -/
def strippedAlnumCheck (u : String) : Bool :=
  let core := u.toList.filter (fun c => c != '_' && c != '-')
  core != [] && core.all Char.isAlphanum

/-- Successful response body of `create_user`. -/
structure CreateOk where
  username : String
  uuid : String
  subscription_url : Option String
deriving DecidableEq

def msg_already_disabled (name : String) : String :=
  "User \x27" ++ name ++ "\x27 is already disabled"

def msg_disabled (name : String) : String :=
  "User \x27" ++ name ++ "\x27 disabled"

def msg_already_enabled (name : String) : String :=
  "User \x27" ++ name ++ "\x27 is already enabled"

def msg_enabled (name : String) : String :=
  "User \x27" ++ name ++ "\x27 enabled"

def msg_deleted (name : String) : String :=
  "User \x27" ++ name ++ "\x27 deleted"

def msg_reset (name : String) : String :=
  "Traffic reset for \x27" ++ name ++ "\x27"

/-- `POST /api/users`: validate, reject duplicates, persist the new
credential, mint the subscription file, rebuild the config.  The state
paired with an `.exn` result shows the writes done before the raise. -/
def create_user (env : Env) (freshUuid freshToken : String)
    (rawUsername : String) (s : St) : Except ApiErr CreateOk × St :=
  let username := pyStrip rawUsername
  if username == "" then
    (.error (.invalidInput "Username is required"), s)
  else if username.length > 32 then
    (.error (.invalidInput "Username too long (max 32 chars)"), s)
  else if !(strippedAlnumCheck username) then
    (.error (.invalidInput "Username must be alphanumeric (with _ or -)"), s)
  else if (dictGet s.uuids username).isSome then
    (.error .conflict, s)
  else
    let uuids1 := dictSet s.uuids username freshUuid
    let s1 := { s with uuids := uuids1 }
    match create_subscription_file env freshToken username freshUuid s1.configArt s1.subs with
    | .error _ => (.error .exn, s1)
    | .ok (token, subs1) =>
      let s2 := { s1 with subs := subs1 }
      match rebuild_xray_config uuids1 (read_disabled s2.disabledFile) s2.configArt with
      | .error _ => (.error .exn, s2)
      | .ok cfg =>
        (.ok { username := username, uuid := freshUuid,
               subscription_url := token.map (sub_url_for env) },
         { s2 with configArt := some cfg })

/-- `DELETE /api/users/<name>`: remove the subscription file, the credential,
the disabled-set entry, the totals record, the stats record and every history
record, then rebuild the config.  Corrupt stats/history files are skipped
silently; a corrupt config raises after all the other writes. -/
def delete_user (name : String) (s : St) : Except ApiErr String × St :=
  if !(dictGet s.uuids name).isSome then
    (.error .notFound, s)
  else
    let subs1 := match find_subscription_token s name with
      | some token => s.subs.filter (fun p => p.1 != token)
      | none => s.subs
    let uuids1 := dictErase s.uuids name
    let disabled1 := setDiscard (read_disabled s.disabledFile) name
    let totals1 := dictErase (readTotals s.totalsArt) name
    let statsArt1 := s.statsArt.map (fun st => dictErase st name)
    let historyArt1 := s.historyArt.map (fun h => h.map (fun e => dictErase e name))
    let s1 : St :=
      { uuids := uuids1, disabledFile := write_disabled disabled1,
        configArt := s.configArt, subs := subs1, totalsArt := some totals1,
        statsArt := statsArt1, historyArt := historyArt1 }
    match rebuild_xray_config uuids1 disabled1 s.configArt with
    | .error _ => (.error .exn, s1)
    | .ok cfg => (.ok (msg_deleted name), { s1 with configArt := some cfg })

/-- `POST /api/users/<name>/disable`: 404 for an unknown user, idempotent
no-op message when already disabled, otherwise add to the disabled set and
rebuild the config. -/
def disable_user (name : String) (s : St) : Except ApiErr String × St :=
  if !(dictGet s.uuids name).isSome then
    (.error .notFound, s)
  else
    let disabled := read_disabled s.disabledFile
    if disabled.contains name then
      (.ok (msg_already_disabled name), s)
    else
      let disabled1 := setAdd disabled name
      let s1 := { s with disabledFile := write_disabled disabled1 }
      match rebuild_xray_config s.uuids disabled1 s.configArt with
      | .error _ => (.error .exn, s1)
      | .ok cfg => (.ok (msg_disabled name), { s1 with configArt := some cfg })

/-- `POST /api/users/<name>/enable`: symmetric to `disable_user`. -/
def enable_user (name : String) (s : St) : Except ApiErr String × St :=
  if !(dictGet s.uuids name).isSome then
    (.error .notFound, s)
  else
    let disabled := read_disabled s.disabledFile
    if !(disabled.contains name) then
      (.ok (msg_already_enabled name), s)
    else
      let disabled1 := setDiscard disabled name
      let s1 := { s with disabledFile := write_disabled disabled1 }
      match rebuild_xray_config s.uuids disabled1 s.configArt with
      | .error _ => (.error .exn, s1)
      | .ok cfg => (.ok (msg_enabled name), { s1 with configArt := some cfg })

/-- `POST /api/users/<name>/reset`: 404 for an unknown user, otherwise set
the user's totals record to zero counters and an empty last-seen. -/
def reset_traffic (name : String) (s : St) : Except ApiErr String × St :=
  if !(dictGet s.uuids name).isSome then
    (.error .notFound, s)
  else
    let totals1 := dictSet (readTotals s.totalsArt) name ⟨0, 0, ""⟩
    (.ok (msg_reset name), { s with totalsArt := some totals1 })

/-- The status string `list_users` derives from disabled-set membership. -/
def user_status (disabled : List String) (name : String) : String :=
  if disabled.contains name then "disabled" else "active"

/-- One row of the `GET /api/users` response. -/
structure UserView where
  username : String
  status : String
  subscription_url : Option String
  uplink : Nat
  downlink : Nat
  ips_now : Nat
  ips_max_24h : Nat
deriving DecidableEq

/-- `GET /api/users`: one row per credential-table entry. -/
def list_users (env : Env) (s : St) : List UserView :=
  let disabled := read_disabled s.disabledFile
  let totals := readTotals s.totalsArt
  let stats := s.statsArt.getD []
  s.uuids.map (fun p =>
    let t := (dictGet totals p.1).getD ⟨0, 0, ""⟩
    let st := (dictGet stats p.1).getD ⟨0, 0⟩
    { username := p.1,
      status := user_status disabled p.1,
      subscription_url := get_subscription_url env s p.1,
      uplink := t.up, downlink := t.dn,
      ips_now := st.ips_now, ips_max_24h := st.ips_max_24h })

/-- A result is a 2xx. -/
def resOk {α : Type} : Except ApiErr α → Bool
  | .ok _ => true
  | .error _ => false

/-- The invariant of claim C2: wherever the parsed artifact has a vless
inbound, that inbound's client list is exactly the active-client list derived
from the credential table minus the disabled set. -/
def configClientsInv (s : St) : Prop :=
  ∀ cfg, s.configArt = some cfg →
    ∀ cs, firstVlessClients cfg = some cs →
      cs = activeClients s.uuids (read_disabled s.disabledFile)

/-- The cross-entity invariant of claim C8: every member of the disabled set
is a key of the credential table. -/
def disabledSubset (s : St) : Prop :=
  ∀ n, n ∈ read_disabled s.disabledFile → (dictGet s.uuids n).isSome = true

-- Concrete fixtures used by counterexamples and witnesses.

/-- A well-formed config: one vless inbound with reality settings. -/
def cfg0 : Config :=
  { inbounds := [
      { protocol := "vless",
        realitySettings := some ⟨"example.com:443", ["example.com"], ["ab"]⟩,
        clients := [] } ] }

/-- An environment with no domain configured. -/
def env0 : Env :=
  { domain := "", server_address := "203.0.113.7", sub_port := "8443",
    reality_public_key := "PBK" }

/-- An empty store over the well-formed config. -/
def st0 : St :=
  { uuids := [], disabledFile := [], configArt := some cfg0, subs := [],
    totalsArt := some [], statsArt := some [], historyArt := some [] }

/-- A parseable config with no reality inbound at all. -/
def stNoReality : St :=
  { st0 with configArt := some { inbounds := [] } }

/-- The post-state common to both outcomes of `delete_user` on an existing
user: everything before the config rebuild has been rewritten. -/
def delete_user_core (name : String) (s : St) : St :=
  { uuids := dictErase s.uuids name,
    disabledFile := write_disabled (setDiscard (read_disabled s.disabledFile) name),
    configArt := s.configArt,
    subs := (match find_subscription_token s name with
             | some token => s.subs.filter (fun p => p.1 != token)
             | none => s.subs),
    totalsArt := some (dictErase (readTotals s.totalsArt) name),
    statsArt := s.statsArt.map (fun st => dictErase st name),
    historyArt := s.historyArt.map (fun h => h.map (fun e => dictErase e name)) }

/-- A store whose config artifact is unparseable. -/
def stCorrupt : St :=
  { st0 with configArt := none }

/-- A store with one user and a parseable config that has no vless
inbound. -/
def stC1e : St :=
  { st0 with uuids := [("alice", "u1")], configArt := some { inbounds := [] } }

/-- A vless config whose client list currently contains both users. -/
def cfgC6 : Config :=
  { inbounds := [
      { protocol := "vless",
        realitySettings := some ⟨"example.com:443", ["example.com"], ["ab"]⟩,
        clients := [⟨"u1", "xtls-rprx-vision", "alice", 0⟩,
                    ⟨"u2", "xtls-rprx-vision", "bob", 0⟩] } ] }

/-- A fully populated store for the revocation cascade. -/
def stC6 : St :=
  { uuids := [("alice", "u1"), ("bob", "u2")],
    disabledFile := ["alice"],
    configArt := some cfgC6,
    subs := [("tokA", "vless://u1@h:443#alice"), ("tokB", "vless://u2@h:443#bob")],
    totalsArt := some [("alice", ⟨1, 2, "x"⟩), ("bob", ⟨3, 4, "y"⟩)],
    statsArt := some [("alice", ⟨1, 1⟩), ("bob", ⟨2, 2⟩)],
    historyArt := some [[("alice", ⟨1, 2, "x"⟩)],
                        [("alice", ⟨0, 0, ""⟩), ("bob", ⟨1, 1, "z"⟩)]] }

/-- Totals fixture: alice has uplink 500 / downlink 300. -/
def tC9 : List (String × TrafficRecord) :=
  [("alice", ⟨500, 300, "jan"⟩), ("bob", ⟨7, 8, "feb"⟩)]

/-- Store with two users and the totals fixture. -/
def stC9 : St :=
  { st0 with uuids := [("alice", "u1"), ("bob", "u2")], totalsArt := some tC9 }

-- ### Helper lemmas ###

theorem find?_eq_none_of_any_false {α : Type} (p : α → Bool) (l : List α)
    (h : l.any p = false) : l.find? p = none := by
  induction l with
  | nil => rfl
  | cons a l ih =>
    simp only [List.any_cons, Bool.or_eq_false_iff] at h
    simp [-List.find?_map, h.1, ih h.2]

theorem find?_map_update {α : Type} (d : List (String × α)) (k : String) (v : α)
    (h : d.any (fun p => p.1 == k) = true) :
    (d.map (fun p => if p.1 == k then (k, v) else p)).find? (fun p => p.1 == k)
      = some (k, v) := by
  induction d with
  | nil => simp at h
  | cons p rest ih =>
    by_cases hp : p.1 = k
    · simp [-List.find?_map, hp]
    · have hr : rest.any (fun p => p.1 == k) = true := by
        simpa [hp] using h
      have ih2 := ih hr
      simp [-List.find?_map, List.find?_cons, hp] at ih2 ⊢
      exact ih2

theorem find?_map_update_ne {α : Type} (d : List (String × α)) (k n : String)
    (v : α) (hne : n ≠ k) :
    (d.map (fun p => if p.1 == k then (k, v) else p)).find? (fun p => p.1 == n)
      = d.find? (fun p => p.1 == n) := by
  induction d with
  | nil => rfl
  | cons p rest ih =>
    by_cases hp : p.1 = k
    · have h1 : ¬ (k = n) := fun hx => hne hx.symm
      simp [-List.find?_map, List.find?_cons, hp, h1] at ih ⊢
      exact ih
    · by_cases hn : p.1 = n
      · simp [-List.find?_map, List.find?_cons, hp, hn, hne]
      · simp [-List.find?_map, List.find?_cons, hp, hn] at ih ⊢
        exact ih

theorem find?_append_single_ne {α : Type} (d : List (String × α)) (k n : String)
    (v : α) (hne : n ≠ k) :
    ((d ++ [(k, v)]).find? (fun p => p.1 == n)) = d.find? (fun p => p.1 == n) := by
  induction d with
  | nil => simp [show ¬ (k = n) from fun hx => hne hx.symm]
  | cons p rest ih =>
    by_cases hp : p.1 = n
    · simp [-List.find?_map, List.find?_cons, hp]
    · simp [-List.find?_map, List.find?_cons, hp] at ih ⊢
      exact ih

theorem find?_append_single_self {α : Type} (d : List (String × α))
    (k : String) (v : α) (h : d.find? (fun p => p.1 == k) = none) :
    ((d ++ [(k, v)]).find? (fun p => p.1 == k)) = some (k, v) := by
  induction d with
  | nil => simp [List.find?_cons]
  | cons p rest ih =>
    by_cases hp : p.1 = k
    · simp [-List.find?_map, List.find?_cons, hp] at h
    · simp [-List.find?_map, -List.find?_eq_none, List.find?_cons, hp] at h
      have hstep : List.find? (fun q => q.1 == k) (p :: (rest ++ [(k, v)])) =
          List.find? (fun q => q.1 == k) (rest ++ [(k, v)]) :=
        List.find?_cons_of_neg _ (by simp [hp])
      rw [List.cons_append, hstep]
      exact ih h

theorem dictGet_dictSet_self {α : Type} (d : List (String × α)) (k : String)
    (v : α) : dictGet (dictSet d k v) k = some v := by
  unfold dictGet dictSet
  by_cases h : d.any (fun p => p.1 == k) = true
  · rw [if_pos h, find?_map_update d k v h]
    rfl
  · rw [if_neg h,
        find?_append_single_self d k v
          (find?_eq_none_of_any_false _ _ (Bool.eq_false_iff.2 h))]
    rfl

theorem dictGet_dictSet_ne {α : Type} (d : List (String × α)) (k n : String)
    (v : α) (h : n ≠ k) : dictGet (dictSet d k v) n = dictGet d n := by
  unfold dictGet dictSet
  by_cases ha : d.any (fun p => p.1 == k) = true
  · rw [if_pos ha, find?_map_update_ne d k n v h]
  · rw [if_neg ha, find?_append_single_ne d k n v h]

theorem dictGet_dictErase_self {α : Type} (d : List (String × α)) (k : String) :
    dictGet (dictErase d k) k = none := by
  unfold dictGet dictErase
  rw [find?_eq_none_of_any_false]
  · rfl
  · rw [Bool.eq_false_iff]
    intro hx
    rcases List.any_eq_true.1 hx with ⟨p, hp, hpk⟩
    rcases List.mem_filter.1 hp with ⟨_, hne⟩
    rw [bne_iff_ne] at hne
    exact hne (by simpa using hpk)

theorem dictGet_dictErase_ne {α : Type} (d : List (String × α)) (k n : String)
    (h : n ≠ k) : dictGet (dictErase d k) n = dictGet d n := by
  unfold dictGet dictErase
  congr 1
  induction d with
  | nil => rfl
  | cons p rest ih =>
    by_cases hp : p.1 = k
    · have h1 : ¬ (k = n) := fun hx => h hx.symm
      simp [-List.find?_map, -List.find?_filter, List.find?_cons, List.filter_cons,
            hp, h1] at ih ⊢
      exact ih
    · by_cases hn : p.1 = n
      · simp [-List.find?_map, -List.find?_filter, List.find?_cons, List.filter_cons,
              hp, hn, h]
      · simp [-List.find?_map, -List.find?_filter, List.find?_cons, List.filter_cons,
              hp, hn] at ih ⊢
        exact ih

theorem mem_insertSorted (x a : String) (l : List String) :
    a ∈ insertSorted x l ↔ a = x ∨ a ∈ l := by
  induction l with
  | nil => simp [insertSorted]
  | cons y ys ih =>
    by_cases h : strLE x y = true
    · simp only [insertSorted, if_pos h, List.mem_cons]
    · simp only [insertSorted, if_neg h, List.mem_cons, ih]
      tauto

theorem insertSorted_perm (x : String) (l : List String) :
    List.Perm (insertSorted x l) (x :: l) := by
  induction l with
  | nil => simp [insertSorted]
  | cons y ys ih =>
    by_cases h : strLE x y = true
    · simp only [insertSorted, if_pos h]
      exact List.Perm.refl _
    · simp only [insertSorted, if_neg h]
      exact (ih.cons y).trans (List.Perm.swap x y ys)

theorem sortStrings_perm (l : List String) : List.Perm (sortStrings l) l := by
  induction l with
  | nil => simp [sortStrings]
  | cons x xs ih =>
    exact (insertSorted_perm x (sortStrings xs)).trans (ih.cons x)

theorem mem_write_disabled (a : String) (l : List String) :
    a ∈ write_disabled l ↔ a ∈ l :=
  (sortStrings_perm l).mem_iff

theorem nodup_write_disabled (l : List String) (h : l.Nodup) :
    (write_disabled l).Nodup :=
  ((sortStrings_perm l).nodup_iff).2 h

theorem mem_read_disabled (a : String) (f : List String) :
    a ∈ read_disabled f ↔ a ∈ f :=
  List.mem_dedup

theorem nodup_read_disabled (f : List String) : (read_disabled f).Nodup :=
  List.nodup_dedup f

theorem contains_iff (l : List String) (a : String) :
    l.contains a = true ↔ a ∈ l :=
  List.elem_iff

theorem mem_setAdd (s : List String) (x a : String) :
    a ∈ setAdd s x ↔ a ∈ s ∨ a = x := by
  unfold setAdd
  by_cases h : s.contains x = true
  · rw [if_pos h]
    have hx : x ∈ s := (contains_iff s x).1 h
    constructor
    · exact Or.inl
    · rintro (hm | rfl)
      · exact hm
      · exact hx
  · rw [if_neg h]
    simp

theorem nodup_setAdd (s : List String) (x : String) (h : s.Nodup) :
    (setAdd s x).Nodup := by
  unfold setAdd
  by_cases hc : s.contains x = true
  · rw [if_pos hc]
    exact h
  · rw [if_neg hc]
    have hx : x ∉ s := fun hm => hc ((contains_iff s x).2 hm)
    simp [List.nodup_append, h, hx]

theorem mem_setDiscard (s : List String) (x a : String) :
    a ∈ setDiscard s x ↔ a ∈ s ∧ a ≠ x := by
  unfold setDiscard
  simp [List.mem_filter]

theorem nodup_setDiscard (s : List String) (x : String) (h : s.Nodup) :
    (setDiscard s x).Nodup :=
  h.filter _

theorem contains_eq_of_mem_iff {d1 d2 : List String}
    (h : ∀ n, n ∈ d1 ↔ n ∈ d2) (n : String) :
    d1.contains n = d2.contains n := by
  by_cases hm : n ∈ d1
  · rw [(contains_iff d1 n).2 hm, (contains_iff d2 n).2 ((h n).1 hm)]
  · have hm2 : n ∉ d2 := fun hx => hm ((h n).2 hx)
    rw [Bool.eq_false_iff.2 (fun hx => hm ((contains_iff d1 n).1 hx)),
        Bool.eq_false_iff.2 (fun hx => hm2 ((contains_iff d2 n).1 hx))]

theorem activeClients_congr (uuids : List (String × String))
    {d1 d2 : List String} (h : ∀ n, n ∈ d1 ↔ n ∈ d2) :
    activeClients uuids d1 = activeClients uuids d2 := by
  unfold activeClients
  congr 1
  apply List.filter_congr
  intro p _
  rw [contains_eq_of_mem_iff h]

theorem find?_setFirstVlessClients (ibs : List Inbound) (cs : List Client) :
    (setFirstVlessClients ibs cs).find? (fun ib => ib.protocol == "vless") =
      (ibs.find? (fun ib => ib.protocol == "vless")).map
        (fun ib => { ib with clients := cs }) := by
  induction ibs with
  | nil => rfl
  | cons ib rest ih =>
    by_cases h : ib.protocol = "vless"
    · simp [-List.find?_map, setFirstVlessClients, h]
    · simp [-List.find?_map, setFirstVlessClients, h, ih]

theorem firstVlessClients_rebuild (uuids : List (String × String))
    (disabled : List String) (cfg cfg' : Config)
    (h : rebuild_xray_config uuids disabled (some cfg) = .ok cfg') :
    firstVlessClients cfg' =
      (cfg.inbounds.find? (fun ib => ib.protocol == "vless")).map
        (fun _ => activeClients uuids disabled) := by
  have hc : cfg' =
      { cfg with
        inbounds := setFirstVlessClients cfg.inbounds (activeClients uuids disabled) } := by
    simpa [rebuild_xray_config] using h.symm
  subst hc
  unfold firstVlessClients
  rw [find?_setFirstVlessClients]
  cases cfg.inbounds.find? (fun ib => ib.protocol == "vless") <;> rfl


-- ### create_user characterizations ###

theorem create_user_conflict (env : Env) (fu ft raw : String) (s : St)
    (h1 : ¬ pyStrip raw = "")
    (h2 : ¬ (pyStrip raw).length > 32)
    (h3 : strippedAlnumCheck (pyStrip raw) = true)
    (h4 : (dictGet s.uuids (pyStrip raw)).isSome = true) :
    create_user env fu ft raw s = (.error .conflict, s) := by
  simp [create_user, h1, h2, h3, h4]

theorem create_user_valid_uuids (env : Env) (fu ft raw : String) (s : St)
    (h1 : ¬ pyStrip raw = "")
    (h2 : ¬ (pyStrip raw).length > 32)
    (h3 : strippedAlnumCheck (pyStrip raw) = true)
    (h4 : dictGet s.uuids (pyStrip raw) = none) :
    (create_user env fu ft raw s).2.uuids = dictSet s.uuids (pyStrip raw) fu := by
  simp [create_user, h1, h2, h3, h4]
  split
  · simp
  · split
    · simp
    · simp

-- ### Claim C9 ###

/-- C9: `reset_traffic` returns 404 when the user is unknown to the
credential table; for a known user it sets that user record of the totals
file to zero counters and an empty last-seen, leaving every other user
record unchanged. -/
theorem c9_reset_traffic (name : String) (s : St)
    (t : List (String × TrafficRecord)) :
    (dictGet s.uuids name = none → reset_traffic name s = (.error .notFound, s)) ∧
    ((dictGet s.uuids name).isSome = true → s.totalsArt = some t →
      (reset_traffic name s).1 = .ok (msg_reset name) ∧
      ∃ t1, (reset_traffic name s).2 = { s with totalsArt := some t1 } ∧
        dictGet t1 name = some ⟨0, 0, ""⟩ ∧
        ∀ other, other ≠ name → dictGet t1 other = dictGet t other) := by
  constructor
  · intro h
    simp [reset_traffic, h]
  · intro h ht
    constructor
    · simp [reset_traffic, h]
    · refine ⟨dictSet t name ⟨0, 0, ""⟩, ?_, ?_, ?_⟩
      · simp [reset_traffic, h, ht, readTotals]
      · exact dictGet_dictSet_self t name ⟨0, 0, ""⟩
      · intro other hne
        exact dictGet_dictSet_ne t name other ⟨0, 0, ""⟩ hne

/-- Witness for C9 at a concrete store: unknown user 404s, and resetting a
user holding uplink 500 / downlink 300 reports success. -/
theorem c9_reset_traffic_witness :
    reset_traffic "zoe" stC9 = (.error .notFound, stC9) ∧
    (reset_traffic "alice" stC9).1 = .ok (msg_reset "alice") ∧
    dictGet tC9 "alice" = some ⟨500, 300, "jan"⟩ := by
  refine ⟨(c9_reset_traffic "zoe" stC9 tC9).1 (by decide), ?_, by decide⟩
  exact ((c9_reset_traffic "alice" stC9 tC9).2 (by decide) rfl).1

-- ### Claim C5 ###

/-- C5: issuing a username that is already present fails with `Conflict`
(HTTP 409) and the failed call leaves the whole store — in particular the
credential table, its size and its mapping — unchanged. -/
theorem c5_duplicate_issue (env : Env) (fu1 ft1 fu2 ft2 u : String) (s : St)
    (htrim : pyStrip u = u) (h1 : ¬ u = "") (h2 : ¬ u.length > 32)
    (h3 : strippedAlnumCheck u = true) (h4 : dictGet s.uuids u = none) :
    (dictGet (create_user env fu1 ft1 u s).2.uuids u).isSome = true ∧
    create_user env fu2 ft2 u (create_user env fu1 ft1 u s).2 =
      (.error .conflict, (create_user env fu1 ft1 u s).2) := by
  have hu : (create_user env fu1 ft1 u s).2.uuids = dictSet s.uuids u fu1 := by
    have := create_user_valid_uuids env fu1 ft1 u s
      (by rwa [htrim]) (by rwa [htrim]) (by rwa [htrim]) (by rwa [htrim])
    rwa [htrim] at this
  have hpresent : (dictGet (create_user env fu1 ft1 u s).2.uuids u).isSome = true := by
    rw [hu, dictGet_dictSet_self]
    rfl
  refine ⟨hpresent, ?_⟩
  exact create_user_conflict env fu2 ft2 u (create_user env fu1 ft1 u s).2
    (by rwa [htrim]) (by rwa [htrim]) (by rwa [htrim]) (by rwa [htrim])

/-- Witness for C5: after creating alice, creating alice again conflicts
and leaves the store exactly as it was. -/
theorem c5_duplicate_issue_witness :
    (dictGet (create_user env0 "u1" "t1" "alice" st0).2.uuids "alice").isSome = true ∧
    create_user env0 "u2" "t2" "alice" (create_user env0 "u1" "t1" "alice" st0).2 =
      (.error .conflict, (create_user env0 "u1" "t1" "alice" st0).2) :=
  c5_duplicate_issue env0 "u1" "t1" "u2" "t2" "alice" st0
    (by decide) (by decide) (by decide) (by decide) (by decide)

-- ### Claim C10 ###

/-- C10: `create_user` strips surrounding whitespace from the supplied
username before validation and storage: a valid name surrounded by
whitespace is created under the trimmed name, and a second request whose
username has different surrounding whitespace but the same trimmed form
fails with `Conflict`. -/
theorem c10_whitespace_strip (env : Env) (fu1 ft1 fu2 ft2 raw1 raw2 : String)
    (s : St)
    (h1 : ¬ pyStrip raw1 = "") (h2 : ¬ (pyStrip raw1).length > 32)
    (h3 : strippedAlnumCheck (pyStrip raw1) = true)
    (h4 : dictGet s.uuids (pyStrip raw1) = none)
    (h12 : pyStrip raw2 = pyStrip raw1) :
    dictGet (create_user env fu1 ft1 raw1 s).2.uuids (pyStrip raw1) = some fu1 ∧
    create_user env fu2 ft2 raw2 (create_user env fu1 ft1 raw1 s).2 =
      (.error .conflict, (create_user env fu1 ft1 raw1 s).2) := by
  have hu : (create_user env fu1 ft1 raw1 s).2.uuids =
      dictSet s.uuids (pyStrip raw1) fu1 :=
    create_user_valid_uuids env fu1 ft1 raw1 s h1 h2 h3 h4
  constructor
  · rw [hu]
    exact dictGet_dictSet_self s.uuids (pyStrip raw1) fu1
  · refine create_user_conflict env fu2 ft2 raw2 (create_user env fu1 ft1 raw1 s).2
      (by rwa [h12]) (by rwa [h12]) (by rwa [h12]) ?_
    rw [h12, hu, dictGet_dictSet_self]
    rfl

/-- Witness for C10: creating "  alice " stores the user under "alice", and
a second request for " alice  " conflicts. -/
theorem c10_whitespace_strip_witness :
    dictGet (create_user env0 "u1" "t1" "  alice " st0).2.uuids "alice" = some "u1" ∧
    create_user env0 "u2" "t2" " alice  " (create_user env0 "u1" "t1" "  alice " st0).2 =
      (.error .conflict, (create_user env0 "u1" "t1" "  alice " st0).2) :=
  c10_whitespace_strip env0 "u1" "t1" "u2" "t2" "  alice " " alice  " st0
    (by decide) (by decide) (by decide) (by decide) (by decide)


-- ### per-operation characterizations ###

theorem create_user_corrupt (env : Env) (fu ft raw : String) (s : St)
    (h1 : ¬ pyStrip raw = "") (h2 : ¬ (pyStrip raw).length > 32)
    (h3 : strippedAlnumCheck (pyStrip raw) = true)
    (h4 : dictGet s.uuids (pyStrip raw) = none)
    (hart : s.configArt = none) :
    create_user env fu ft raw s =
      (.error .exn, { s with uuids := dictSet s.uuids (pyStrip raw) fu }) := by
  simp [create_user, h1, h2, h3, h4, hart, create_subscription_file,
        build_vless_link]

theorem create_user_parseable_ok (env : Env) (fu ft raw : String) (s : St)
    (cfg0 : Config)
    (h1 : ¬ pyStrip raw = "") (h2 : ¬ (pyStrip raw).length > 32)
    (h3 : strippedAlnumCheck (pyStrip raw) = true)
    (h4 : dictGet s.uuids (pyStrip raw) = none)
    (hart : s.configArt = some cfg0) :
    ∃ subs1 url,
      create_user env fu ft raw s =
        (.ok { username := pyStrip raw, uuid := fu, subscription_url := url },
         { s with uuids := dictSet s.uuids (pyStrip raw) fu,
                  subs := subs1,
                  configArt := some
                    { cfg0 with
                      inbounds := setFirstVlessClients cfg0.inbounds
                        (activeClients (dictSet s.uuids (pyStrip raw) fu)
                          (read_disabled s.disabledFile)) } }) := by
  cases hf : cfg0.inbounds.find? (fun ib => ib.realitySettings.isSome) with
  | none =>
    refine ⟨s.subs, none, ?_⟩
    simp [create_user, h1, h2, h3, h4, hart, create_subscription_file,
          build_vless_link, hf, rebuild_xray_config]
  | some ib =>
    refine ⟨s.subs ++ [(ft, mkVlessLink env (pyStrip raw) fu
        ((ib.realitySettings.getD ⟨"", [], []⟩).serverNames.headD "")
        ((ib.realitySettings.getD ⟨"", [], []⟩).shortIds.headD ""))],
      some (sub_url_for env ft), ?_⟩
    simp [create_user, h1, h2, h3, h4, hart, create_subscription_file,
          build_vless_link, hf, rebuild_xray_config]

theorem delete_user_notFound (name : String) (s : St)
    (h : dictGet s.uuids name = none) :
    delete_user name s = (.error .notFound, s) := by
  simp [delete_user, h]

theorem delete_user_corrupt (name : String) (s : St)
    (h : (dictGet s.uuids name).isSome = true) (hart : s.configArt = none) :
    delete_user name s = (.error .exn, delete_user_core name s) := by
  simp [delete_user, h, hart, rebuild_xray_config, delete_user_core]

theorem delete_user_ok (name : String) (s : St) (cfg0 : Config)
    (h : (dictGet s.uuids name).isSome = true)
    (hart : s.configArt = some cfg0) :
    delete_user name s =
      (.ok (msg_deleted name),
       { delete_user_core name s with
         configArt := some
           { cfg0 with
             inbounds := setFirstVlessClients cfg0.inbounds
               (activeClients (dictErase s.uuids name)
                 (setDiscard (read_disabled s.disabledFile) name)) } }) := by
  simp [delete_user, h, hart, rebuild_xray_config, delete_user_core]

theorem disable_user_notFound (name : String) (s : St)
    (h : dictGet s.uuids name = none) :
    disable_user name s = (.error .notFound, s) := by
  simp [disable_user, h]

theorem disable_user_already (name : String) (s : St)
    (h : (dictGet s.uuids name).isSome = true)
    (hc : (read_disabled s.disabledFile).contains name = true) :
    disable_user name s = (.ok (msg_already_disabled name), s) := by
  have hm : name ∈ read_disabled s.disabledFile := (contains_iff _ _).1 hc
  simp [disable_user, h, hm]

theorem disable_user_corrupt (name : String) (s : St)
    (h : (dictGet s.uuids name).isSome = true)
    (hc : ¬ (read_disabled s.disabledFile).contains name = true)
    (hart : s.configArt = none) :
    disable_user name s =
      (.error .exn,
       { s with disabledFile :=
           write_disabled (setAdd (read_disabled s.disabledFile) name) }) := by
  have hm : name ∉ read_disabled s.disabledFile := fun hx => hc ((contains_iff _ _).2 hx)
  simp [disable_user, h, hm, hart, rebuild_xray_config]

theorem disable_user_ok (name : String) (s : St) (cfg0 : Config)
    (h : (dictGet s.uuids name).isSome = true)
    (hc : ¬ (read_disabled s.disabledFile).contains name = true)
    (hart : s.configArt = some cfg0) :
    disable_user name s =
      (.ok (msg_disabled name),
       { s with
         disabledFile := write_disabled (setAdd (read_disabled s.disabledFile) name),
         configArt := some
           { cfg0 with
             inbounds := setFirstVlessClients cfg0.inbounds
               (activeClients s.uuids (setAdd (read_disabled s.disabledFile) name)) } }) := by
  have hm : name ∉ read_disabled s.disabledFile := fun hx => hc ((contains_iff _ _).2 hx)
  simp [disable_user, h, hm, hart, rebuild_xray_config]

theorem enable_user_notFound (name : String) (s : St)
    (h : dictGet s.uuids name = none) :
    enable_user name s = (.error .notFound, s) := by
  simp [enable_user, h]

theorem enable_user_already (name : String) (s : St)
    (h : (dictGet s.uuids name).isSome = true)
    (hc : (read_disabled s.disabledFile).contains name = false) :
    enable_user name s = (.ok (msg_already_enabled name), s) := by
  have hm : name ∉ read_disabled s.disabledFile := fun hx => by
    rw [(contains_iff _ _).2 hx] at hc
    exact Bool.noConfusion hc
  simp [enable_user, h, hm]

theorem enable_user_corrupt (name : String) (s : St)
    (h : (dictGet s.uuids name).isSome = true)
    (hc : (read_disabled s.disabledFile).contains name = true)
    (hart : s.configArt = none) :
    enable_user name s =
      (.error .exn,
       { s with disabledFile :=
           write_disabled (setDiscard (read_disabled s.disabledFile) name) }) := by
  have hm : name ∈ read_disabled s.disabledFile := (contains_iff _ _).1 hc
  simp [enable_user, h, hm, hart, rebuild_xray_config]

theorem enable_user_ok (name : String) (s : St) (cfg0 : Config)
    (h : (dictGet s.uuids name).isSome = true)
    (hc : (read_disabled s.disabledFile).contains name = true)
    (hart : s.configArt = some cfg0) :
    enable_user name s =
      (.ok (msg_enabled name),
       { s with
         disabledFile := write_disabled (setDiscard (read_disabled s.disabledFile) name),
         configArt := some
           { cfg0 with
             inbounds := setFirstVlessClients cfg0.inbounds
               (activeClients s.uuids (setDiscard (read_disabled s.disabledFile) name)) } }) := by
  have hm : name ∈ read_disabled s.disabledFile := (contains_iff _ _).1 hc
  simp [enable_user, h, hm, hart, rebuild_xray_config]


-- ### Claim C3 ###

theorem strippedAlnumCheck_iff (u : String) :
    strippedAlnumCheck u = true ↔
      ((∀ c ∈ u.data, (c.isAlphanum || c == '_' || c == '-') = true) ∧
       ∃ c ∈ u.data, c.isAlphanum = true) := by
  unfold strippedAlnumCheck
  simp only [Bool.and_eq_true, bne_iff_ne, ne_eq, List.all_eq_true]
  constructor
  · rintro ⟨hne, hall⟩
    constructor
    · intro c hc
      by_cases hu : c = '_'
      · simp [hu]
      · by_cases hh : c = '-'
        · simp [hh]
        · have hcc : c ∈ List.filter (fun c => c != '_' && c != '-') u.toList := by
            rw [List.mem_filter]
            exact ⟨hc, by simp [bne, hu, hh]⟩
          simp [hall c hcc]
    · rcases List.exists_mem_of_ne_nil _ hne with ⟨c, hc⟩
      rcases List.mem_filter.1 hc with ⟨hcu, _⟩
      exact ⟨c, hcu, hall c hc⟩
  · rintro ⟨hall, c0, hc0, halnum⟩
    constructor
    · intro hnil
      have hc0f : c0 ∈ List.filter (fun c => c != '_' && c != '-') u.toList := by
        rw [List.mem_filter]
        refine ⟨hc0, ?_⟩
        have h1 : ¬ c0 = '_' := fun hx => by
          rw [hx] at halnum
          exact Bool.noConfusion halnum
        have h2 : ¬ c0 = '-' := fun hx => by
          rw [hx] at halnum
          exact Bool.noConfusion halnum
        simp [bne, h1, h2]
      rw [hnil] at hc0f
      exact List.not_mem_nil c0 hc0f
    · intro c hc
      rcases List.mem_filter.1 hc with ⟨hcu, hch⟩
      simp only [Bool.and_eq_true, bne_iff_ne, ne_eq] at hch
      have hset := hall c hcu
      simp only [Bool.or_eq_true, beq_iff_eq] at hset
      rcases hset with (hx | hx) | hx
      · exact hx
      · exact absurd hx hch.1
      · exact absurd hx hch.2

theorem create_user_result_shape (env : Env) (fu ft raw : String) (s : St)
    (h1 : ¬ pyStrip raw = "") (h2 : ¬ (pyStrip raw).length > 32)
    (h3 : strippedAlnumCheck (pyStrip raw) = true) :
    (create_user env fu ft raw s).1 = .error .conflict ∨
    (create_user env fu ft raw s).1 = .error .exn ∨
    ∃ r, (create_user env fu ft raw s).1 = .ok r := by
  by_cases h4 : (dictGet s.uuids (pyStrip raw)).isSome = true
  · left
    rw [create_user_conflict env fu ft raw s h1 h2 h3 h4]
  · have h4n : dictGet s.uuids (pyStrip raw) = none := by
      cases hx : dictGet s.uuids (pyStrip raw) with
      | none => rfl
      | some v => rw [hx] at h4; exact absurd rfl h4
    cases hart : s.configArt with
    | none =>
      right; left
      rw [create_user_corrupt env fu ft raw s h1 h2 h3 h4n hart]
    | some cfg0 =>
      right; right
      obtain ⟨subs1, url, heq⟩ :=
        create_user_parseable_ok env fu ft raw s cfg0 h1 h2 h3 h4n hart
      exact ⟨_, by rw [heq]⟩


/-- C3 counterexample: the username "_" is nonempty, within 32 characters,
already stripped, and consists solely of characters from the allowed set
(alphanumeric plus underscore and hyphen), yet `create_user` rejects it with
a 400 `InvalidUsername` — refuting the claimed acceptance of every such
username. -/
theorem c3_counterexample :
    ("_".data.all (fun c => c.isAlphanum || c == '_' || c == '-')) = true ∧
    "_".length = 1 ∧ pyStrip "_" = "_" ∧
    (create_user env0 "u1" "t1" "_" st0).1 =
      .error (.invalidInput "Username must be alphanumeric (with _ or -)") := by
  decide

/-- C3 (amended): for an already-stripped username, `create_user` fails with
`InvalidUsername` (HTTP 400) iff the username is empty, longer than 32
characters, contains a character outside alphanumeric plus underscore and
hyphen, or contains no alphanumeric character at all (e.g. consists solely
of underscores and hyphens). -/
theorem c3_validation (env : Env) (fu ft u : String) (s : St)
    (htrim : pyStrip u = u) :
    (∃ m, (create_user env fu ft u s).1 = .error (.invalidInput m)) ↔
      (u = "" ∨ u.length > 32 ∨
       ¬ (∀ c ∈ u.data, (c.isAlphanum || c == '_' || c == '-') = true) ∨
       ∀ c ∈ u.data, c.isAlphanum = false) := by
  by_cases h1 : u = ""
  · constructor
    · intro _
      exact Or.inl h1
    · intro _
      refine ⟨"Username is required", ?_⟩
      subst h1
      simp [create_user, htrim]
  by_cases h2 : u.length > 32
  · constructor
    · intro _
      exact Or.inr (Or.inl h2)
    · intro _
      refine ⟨"Username too long (max 32 chars)", ?_⟩
      simp [create_user, htrim, h1, h2]
  by_cases h3 : strippedAlnumCheck u = true
  · have hshape := create_user_result_shape env fu ft u s
      (by rwa [htrim]) (by rwa [htrim]) (by rwa [htrim])
    constructor
    · rintro ⟨m, hm⟩
      rcases hshape with hs | hs | ⟨r, hs⟩ <;> rw [hs] at hm <;> simp at hm
    · intro hr
      rcases (strippedAlnumCheck_iff u).1 h3 with ⟨hall, c0, hc0, hc0a⟩
      rcases hr with hr | hr | hr | hr
      · exact absurd hr h1
      · exact absurd hr h2
      · exact absurd hall hr
      · rw [hr c0 hc0] at hc0a
        exact Bool.noConfusion hc0a
  · constructor
    · intro _
      by_cases hall : ∀ c ∈ u.data, (c.isAlphanum || c == '_' || c == '-') = true
      · right; right; right
        intro c hc
        by_contra hcc
        have hca : c.isAlphanum = true := by
          cases hx : c.isAlphanum
          · exact absurd hx hcc
          · rfl
        exact h3 ((strippedAlnumCheck_iff u).2 ⟨hall, c, hc, hca⟩)
      · right; right; left
        exact hall
    · intro _
      refine ⟨"Username must be alphanumeric (with _ or -)", ?_⟩
      have h3f : strippedAlnumCheck u = false := Bool.eq_false_iff.2 h3
      simp [create_user, htrim, h1, h2, h3f]

/-- Witness for the amended C3: "a b" contains a character outside the set
and is indeed rejected with a 400. -/
theorem c3_validation_witness :
    ∃ m, (create_user env0 "u1" "t1" "a b" st0).1 = .error (.invalidInput m) :=
  (c3_validation env0 "u1" "t1" "a b" st0 (by decide)).2
    (Or.inr (Or.inr (Or.inl (by decide))))

-- ### Claim C4 ###

/-- C4 counterexample: with a parseable downstream configuration containing
no reality inbound, user creation nevertheless succeeds (HTTP 201) with a
null subscription URL — refuting the claim that the mint step fails and
that creation cannot succeed with a null subscription URL. -/
theorem c4_counterexample :
    (create_user env0 "u1" "t1" "alice" stNoReality).1 =
      .ok { username := "alice", uuid := "u1", subscription_url := none } := by
  decide

/-- C4 (amended): when no inbound of the downstream configuration carries
reality settings, `build_vless_link` returns no link rather than raising any
`ConfigIncomplete` error, `create_subscription_file` mints no token and
leaves the registry untouched, and `create_user` completes successfully with
a null subscription URL. -/
theorem c4_no_reality (env : Env) (fu ft raw : String) (s : St) (cfg : Config)
    (hart : s.configArt = some cfg)
    (hnors : ∀ ib ∈ cfg.inbounds, ib.realitySettings = none)
    (h1 : ¬ pyStrip raw = "") (h2 : ¬ (pyStrip raw).length > 32)
    (h3 : strippedAlnumCheck (pyStrip raw) = true)
    (h4 : dictGet s.uuids (pyStrip raw) = none) :
    build_vless_link env (pyStrip raw) fu s.configArt = .ok none ∧
    create_subscription_file env ft (pyStrip raw) fu s.configArt s.subs =
      .ok (none, s.subs) ∧
    (create_user env fu ft raw s).1 =
      .ok { username := pyStrip raw, uuid := fu, subscription_url := none } ∧
    (create_user env fu ft raw s).2.subs = s.subs := by
  have hfind : cfg.inbounds.find? (fun ib => ib.realitySettings.isSome) = none := by
    apply find?_eq_none_of_any_false
    rw [Bool.eq_false_iff]
    intro hx
    rcases List.any_eq_true.1 hx with ⟨ib, hib, hsome⟩
    rw [hnors ib hib] at hsome
    simp at hsome
  have hb : build_vless_link env (pyStrip raw) fu s.configArt = .ok none := by
    rw [hart]
    simp [build_vless_link, hfind]
  have hcs : create_subscription_file env ft (pyStrip raw) fu s.configArt s.subs =
      .ok (none, s.subs) := by
    simp [create_subscription_file, hb]
  have hcs2 := hcs
  rw [hart] at hcs2
  refine ⟨hb, hcs, ?_, ?_⟩
  · simp [create_user, h1, h2, h3, h4, hart, hcs2, rebuild_xray_config]
  · simp [create_user, h1, h2, h3, h4, hart, hcs2, rebuild_xray_config]

/-- Witness for the amended C4 at a concrete store without reality
settings. -/
theorem c4_no_reality_witness :
    (create_user env0 "u1" "t1" "bob" stNoReality).1 =
      .ok { username := "bob", uuid := "u1", subscription_url := none } ∧
    (create_user env0 "u1" "t1" "bob" stNoReality).2.subs = stNoReality.subs := by
  have h := c4_no_reality env0 "u1" "t1" "bob" stNoReality { inbounds := [] } rfl
    (by intro ib hib; exact absurd hib (List.not_mem_nil ib))
    (by decide) (by decide) (by decide) (by decide)
  exact ⟨h.2.2.1, h.2.2.2⟩


-- ### Claim C7 ###

theorem dictGet_eq_none_of_not_isSome {α : Type} (d : List (String × α))
    (k : String) (h : ¬ (dictGet d k).isSome = true) : dictGet d k = none := by
  cases hx : dictGet d k with
  | none => rfl
  | some v =>
    rw [hx] at h
    exact absurd rfl h

theorem disable_user_uuids (name : String) (s : St) :
    (disable_user name s).2.uuids = s.uuids := by
  by_cases h : (dictGet s.uuids name).isSome = true
  · by_cases hc : (read_disabled s.disabledFile).contains name = true
    · rw [disable_user_already name s h hc]
    · cases hart : s.configArt with
      | none => rw [disable_user_corrupt name s h hc hart]
      | some cfg0 => rw [disable_user_ok name s cfg0 h hc hart]
  · rw [disable_user_notFound name s (dictGet_eq_none_of_not_isSome _ _ h)]

/-- C7: disable and enable are idempotent on existing users: disabling an
already-disabled user is a no-op reporting the "already disabled" message,
enabling an already-enabled user is the symmetric no-op, the disabled file
holds no duplicate entries after a disable, a second disable right after a
first returns the idempotent message and changes nothing, and disable
followed by enable restores status "active". -/
theorem c7_idempotent (name : String) (s : St)
    (huser : (dictGet s.uuids name).isSome = true)
    (hnodup : s.disabledFile.Nodup) :
    ((read_disabled s.disabledFile).contains name = true →
      disable_user name s = (.ok (msg_already_disabled name), s)) ∧
    ((read_disabled s.disabledFile).contains name = false →
      enable_user name s = (.ok (msg_already_enabled name), s)) ∧
    (disable_user name s).2.disabledFile.Nodup ∧
    disable_user name (disable_user name s).2 =
      (.ok (msg_already_disabled name), (disable_user name s).2) ∧
    user_status
      (read_disabled (enable_user name (disable_user name s).2).2.disabledFile)
      name = "active" := by
  have hA : (disable_user name s).2.uuids = s.uuids := disable_user_uuids name s
  have hkey : (disable_user name s).2.disabledFile.Nodup ∧
      name ∈ read_disabled (disable_user name s).2.disabledFile := by
    by_cases hc : (read_disabled s.disabledFile).contains name = true
    · rw [disable_user_already name s huser hc]
      exact ⟨hnodup, (contains_iff _ _).1 hc⟩
    · have hgoal : ∀ st1 : St, st1.disabledFile =
          write_disabled (setAdd (read_disabled s.disabledFile) name) →
          st1.disabledFile.Nodup ∧ name ∈ read_disabled st1.disabledFile := by
        intro st1 hf
        rw [hf]
        constructor
        · exact nodup_write_disabled _ (nodup_setAdd _ _ (nodup_read_disabled _))
        · rw [mem_read_disabled, mem_write_disabled, mem_setAdd]
          exact Or.inr rfl
      cases hart : s.configArt with
      | none =>
        exact hgoal _ (by rw [disable_user_corrupt name s huser hc hart])
      | some cfg0 =>
        exact hgoal _ (by rw [disable_user_ok name s cfg0 huser hc hart])
  have huser1 : (dictGet (disable_user name s).2.uuids name).isSome = true := by
    rw [hA]
    exact huser
  have hc1 : (read_disabled (disable_user name s).2.disabledFile).contains name
      = true := (contains_iff _ _).2 hkey.2
  refine ⟨fun hc => disable_user_already name s huser hc,
          fun hc => enable_user_already name s huser hc,
          hkey.1,
          disable_user_already name (disable_user name s).2 huser1 hc1,
          ?_⟩
  have hstatus : ∀ st2 : St, st2.disabledFile =
      write_disabled (setDiscard
        (read_disabled (disable_user name s).2.disabledFile) name) →
      user_status (read_disabled st2.disabledFile) name = "active" := by
    intro st2 hf
    have hnm : name ∉ read_disabled st2.disabledFile := by
      rw [hf, mem_read_disabled, mem_write_disabled, mem_setDiscard]
      rintro ⟨_, hne⟩
      exact hne rfl
    unfold user_status
    rw [if_neg (fun hx => hnm ((contains_iff _ _).1 hx))]
  cases hart1 : (disable_user name s).2.configArt with
  | none =>
    exact hstatus _ (by rw [enable_user_corrupt name _ huser1 hc1 hart1])
  | some cfg1 =>
    exact hstatus _ (by rw [enable_user_ok name _ cfg1 huser1 hc1 hart1])

/-- Witness for C7: disabling alice twice in the fixture store reports the
idempotent message, keeps the disabled file duplicate-free, and a
disable-then-enable ends with alice active. -/
theorem c7_idempotent_witness :
    (disable_user "alice" stC9).2.disabledFile.Nodup ∧
    disable_user "alice" (disable_user "alice" stC9).2 =
      (.ok (msg_already_disabled "alice"), (disable_user "alice" stC9).2) ∧
    user_status
      (read_disabled (enable_user "alice" (disable_user "alice" stC9).2).2.disabledFile)
      "alice" = "active" := by
  have h := c7_idempotent "alice" stC9 (by decide) (by decide)
  exact ⟨h.2.2.1, h.2.2.2.1, h.2.2.2.2⟩

-- ### Claim C1 ###

theorem setFirstVlessClients_id (ibs : List Inbound) (cs : List Client)
    (h : ∀ ib ∈ ibs, ¬ ib.protocol = "vless") :
    setFirstVlessClients ibs cs = ibs := by
  induction ibs with
  | nil => rfl
  | cons ib rest ih =>
    have hib := h ib (List.mem_cons_self ib rest)
    rw [setFirstVlessClients, if_neg (by simp [hib])]
    rw [ih (fun x hx => h x (List.mem_cons_of_mem ib hx))]

/-- C1 counterexample: with a corrupt (unparseable) configuration artifact,
creating a valid fresh user aborts with a 5xx, but the credential table has
already been rewritten to contain the new user — the mutation does NOT leave
all files unchanged. -/
theorem c1_counterexample :
    (create_user env0 "u1" "t1" "alice" stCorrupt).1 = .error .exn ∧
    stCorrupt.uuids = [] ∧
    (create_user env0 "u1" "t1" "alice" stCorrupt).2.uuids = [("alice", "u1")] := by
  decide

/-- C1 (amended): there is no `InboundNotFound` abort at all — with a
parseable configuration lacking a vless inbound the mutation completes
successfully and the artifact (hence its client list) is silently written
back unmodified; and on `ConfigCorrupt` (unparseable artifact) every
rebuild-triggering mutation surfaces a 5xx with the artifact untouched, but
the files rewritten before the rebuild step stay updated: create keeps the
new credential, delete keeps the whole cascade of removals, disable/enable
keep the rewritten disabled set. -/
theorem c1_rebuild_failures (env : Env) (fu ft raw name : String) (s : St)
    (cfg : Config) :
    (s.configArt = none → ¬ pyStrip raw = "" → ¬ (pyStrip raw).length > 32 →
      strippedAlnumCheck (pyStrip raw) = true →
      dictGet s.uuids (pyStrip raw) = none →
      create_user env fu ft raw s =
        (.error .exn, { s with uuids := dictSet s.uuids (pyStrip raw) fu })) ∧
    (s.configArt = none → (dictGet s.uuids name).isSome = true →
      delete_user name s = (.error .exn, delete_user_core name s) ∧
      (delete_user name s).2.configArt = none ∧
      dictGet (delete_user name s).2.uuids name = none) ∧
    (s.configArt = none → (dictGet s.uuids name).isSome = true →
      ¬ (read_disabled s.disabledFile).contains name = true →
      disable_user name s =
        (.error .exn,
         { s with
           disabledFile := write_disabled (setAdd (read_disabled s.disabledFile) name) })) ∧
    (s.configArt = none → (dictGet s.uuids name).isSome = true →
      (read_disabled s.disabledFile).contains name = true →
      enable_user name s =
        (.error .exn,
         { s with
           disabledFile := write_disabled (setDiscard (read_disabled s.disabledFile) name) })) ∧
    (s.configArt = some cfg →
      (∀ ib ∈ cfg.inbounds, ¬ ib.protocol = "vless") →
      (dictGet s.uuids name).isSome = true →
      ¬ (read_disabled s.disabledFile).contains name = true →
      (disable_user name s).1 = .ok (msg_disabled name) ∧
      (disable_user name s).2.configArt = some cfg) := by
  refine ⟨?_, ?_, ?_, ?_, ?_⟩
  · intro hart h1 h2 h3 h4
    exact create_user_corrupt env fu ft raw s h1 h2 h3 h4 hart
  · intro hart hu
    refine ⟨delete_user_corrupt name s hu hart, ?_, ?_⟩
    · rw [delete_user_corrupt name s hu hart]
      exact hart
    · rw [delete_user_corrupt name s hu hart]
      exact dictGet_dictErase_self s.uuids name
  · intro hart hu hc
    exact disable_user_corrupt name s hu hc hart
  · intro hart hu hc
    exact enable_user_corrupt name s hu hc hart
  · intro hart hno hu hc
    rw [disable_user_ok name s cfg hu hc hart]
    refine ⟨rfl, ?_⟩
    rw [setFirstVlessClients_id cfg.inbounds _ hno]

/-- Witness for the amended C1: a corrupt-config create aborts with the new
credential persisted, and a disable against a config with no vless inbound
completes with the artifact unchanged. -/
theorem c1_rebuild_failures_witness :
    create_user env0 "u1" "t1" "alice" stCorrupt =
      (.error .exn, { stCorrupt with uuids := dictSet stCorrupt.uuids "alice" "u1" }) ∧
    (disable_user "alice" stC1e).1 = .ok (msg_disabled "alice") ∧
    (disable_user "alice" stC1e).2.configArt = some { inbounds := [] } := by
  have ha := (c1_rebuild_failures env0 "u1" "t1" "alice" "alice" stCorrupt
      { inbounds := [] }).1 rfl (by decide) (by decide) (by decide) (by decide)
  have he := (c1_rebuild_failures env0 "u1" "t1" "alice" "alice" stC1e
      { inbounds := [] }).2.2.2.2 rfl
      (by intro ib hib; exact absurd hib (List.not_mem_nil ib))
      (by decide) (by decide)
  exact ⟨ha, he.1, he.2⟩


-- ### Claim C8 ###

theorem isSome_dictGet_dictSet {α : Type} (d : List (String × α))
    (k n : String) (v : α) (h : (dictGet d n).isSome = true) :
    (dictGet (dictSet d k v) n).isSome = true := by
  by_cases hn : n = k
  · subst hn
    rw [dictGet_dictSet_self]
    rfl
  · rw [dictGet_dictSet_ne d k n v hn]
    exact h

theorem create_user_invalid_state (env : Env) (fu ft raw : String) (s : St)
    (h : pyStrip raw = "" ∨ (pyStrip raw).length > 32 ∨
      strippedAlnumCheck (pyStrip raw) = false) :
    (create_user env fu ft raw s).2 = s := by
  rcases h with h | h | h
  · simp [create_user, h]
  · by_cases h1 : pyStrip raw = ""
    · simp [create_user, h1]
    · simp [create_user, h1, h]
  · by_cases h1 : pyStrip raw = ""
    · simp [create_user, h1]
    · by_cases h2 : (pyStrip raw).length > 32
      · simp [create_user, h1, h2]
      · simp [create_user, h1, h2, h]

theorem create_user_frame (env : Env) (fu ft raw : String) (s : St) :
    (create_user env fu ft raw s).2.disabledFile = s.disabledFile ∧
    ((create_user env fu ft raw s).2.uuids = s.uuids ∨
     (create_user env fu ft raw s).2.uuids = dictSet s.uuids (pyStrip raw) fu) := by
  by_cases h1 : pyStrip raw = ""
  · rw [create_user_invalid_state env fu ft raw s (Or.inl h1)]
    exact ⟨rfl, Or.inl rfl⟩
  by_cases h2 : (pyStrip raw).length > 32
  · rw [create_user_invalid_state env fu ft raw s (Or.inr (Or.inl h2))]
    exact ⟨rfl, Or.inl rfl⟩
  by_cases h3 : strippedAlnumCheck (pyStrip raw) = true
  case neg =>
    rw [create_user_invalid_state env fu ft raw s
        (Or.inr (Or.inr (Bool.eq_false_iff.2 h3)))]
    exact ⟨rfl, Or.inl rfl⟩
  by_cases h4 : (dictGet s.uuids (pyStrip raw)).isSome = true
  · rw [create_user_conflict env fu ft raw s h1 h2 h3 h4]
    exact ⟨rfl, Or.inl rfl⟩
  · have h4n := dictGet_eq_none_of_not_isSome _ _ h4
    cases hart : s.configArt with
    | none =>
      rw [create_user_corrupt env fu ft raw s h1 h2 h3 h4n hart]
      exact ⟨rfl, Or.inr rfl⟩
    | some cfg0 =>
      obtain ⟨subs1, url, heq⟩ :=
        create_user_parseable_ok env fu ft raw s cfg0 h1 h2 h3 h4n hart
      rw [heq]
      exact ⟨rfl, Or.inr rfl⟩

theorem reset_traffic_frame (name : String) (s : St) :
    (reset_traffic name s).2.uuids = s.uuids ∧
    (reset_traffic name s).2.disabledFile = s.disabledFile := by
  unfold reset_traffic
  split
  · exact ⟨rfl, rfl⟩
  · exact ⟨rfl, rfl⟩

theorem delete_user_found_state (name : String) (s : St)
    (h : (dictGet s.uuids name).isSome = true) :
    (delete_user name s).2.uuids = dictErase s.uuids name ∧
    (delete_user name s).2.disabledFile =
      write_disabled (setDiscard (read_disabled s.disabledFile) name) := by
  cases hart : s.configArt with
  | none =>
    rw [delete_user_corrupt name s h hart]
    exact ⟨rfl, rfl⟩
  | some cfg0 =>
    rw [delete_user_ok name s cfg0 h hart]
    exact ⟨rfl, rfl⟩

theorem disable_user_main_state (name : String) (s : St)
    (h : (dictGet s.uuids name).isSome = true)
    (hc : ¬ (read_disabled s.disabledFile).contains name = true) :
    (disable_user name s).2.uuids = s.uuids ∧
    (disable_user name s).2.disabledFile =
      write_disabled (setAdd (read_disabled s.disabledFile) name) := by
  cases hart : s.configArt with
  | none =>
    rw [disable_user_corrupt name s h hc hart]
    exact ⟨rfl, rfl⟩
  | some cfg0 =>
    rw [disable_user_ok name s cfg0 h hc hart]
    exact ⟨rfl, rfl⟩

theorem enable_user_main_state (name : String) (s : St)
    (h : (dictGet s.uuids name).isSome = true)
    (hc : (read_disabled s.disabledFile).contains name = true) :
    (enable_user name s).2.uuids = s.uuids ∧
    (enable_user name s).2.disabledFile =
      write_disabled (setDiscard (read_disabled s.disabledFile) name) := by
  cases hart : s.configArt with
  | none =>
    rw [enable_user_corrupt name s h hc hart]
    exact ⟨rfl, rfl⟩
  | some cfg0 =>
    rw [enable_user_ok name s cfg0 h hc hart]
    exact ⟨rfl, rfl⟩

/-- C8: the disabled set remains a subset of the credential-table keys
across every mutation (create, delete, disable, enable, reset); moreover a
disable only ever adds a name that exists in the table, and a delete removes
the revoked name from the disabled set. -/
theorem c8_disabled_subset (env : Env) (fu ft raw name : String) (s : St)
    (hinv : disabledSubset s) :
    disabledSubset (create_user env fu ft raw s).2 ∧
    disabledSubset (delete_user name s).2 ∧
    disabledSubset (disable_user name s).2 ∧
    disabledSubset (enable_user name s).2 ∧
    disabledSubset (reset_traffic name s).2 ∧
    (∀ n, n ∈ read_disabled (disable_user name s).2.disabledFile →
      n ∈ read_disabled s.disabledFile ∨
        (n = name ∧ (dictGet s.uuids name).isSome = true)) ∧
    ((dictGet s.uuids name).isSome = true →
      name ∉ read_disabled (delete_user name s).2.disabledFile) := by
  have hdisable : ∀ n, n ∈ read_disabled (disable_user name s).2.disabledFile →
      n ∈ read_disabled s.disabledFile ∨
        (n = name ∧ (dictGet s.uuids name).isSome = true) := by
    intro n hn
    by_cases h : (dictGet s.uuids name).isSome = true
    · by_cases hc : (read_disabled s.disabledFile).contains name = true
      · rw [disable_user_already name s h hc] at hn
        exact Or.inl hn
      · rw [(disable_user_main_state name s h hc).2, mem_read_disabled,
            mem_write_disabled, mem_setAdd] at hn
        rcases hn with hn | hn
        · exact Or.inl hn
        · exact Or.inr ⟨hn, h⟩
    · rw [disable_user_notFound name s (dictGet_eq_none_of_not_isSome _ _ h)] at hn
      exact Or.inl hn
  refine ⟨?_, ?_, ?_, ?_, ?_, hdisable, ?_⟩
  · intro n hn
    have hcf := create_user_frame env fu ft raw s
    rw [hcf.1] at hn
    rcases hcf.2 with hu | hu
    · rw [hu]
      exact hinv n hn
    · rw [hu]
      exact isSome_dictGet_dictSet _ _ _ _ (hinv n hn)
  · intro n hn
    by_cases h : (dictGet s.uuids name).isSome = true
    · have hst := delete_user_found_state name s h
      rw [hst.2, mem_read_disabled, mem_write_disabled, mem_setDiscard] at hn
      rw [hst.1, dictGet_dictErase_ne s.uuids name n hn.2]
      exact hinv n hn.1
    · rw [delete_user_notFound name s (dictGet_eq_none_of_not_isSome _ _ h)] at hn ⊢
      exact hinv n hn
  · intro n hn
    rcases hdisable n hn with hmem | ⟨heq, hsome⟩
    · rw [disable_user_uuids name s]
      exact hinv n hmem
    · rw [disable_user_uuids name s, heq]
      exact hsome
  · intro n hn
    by_cases h : (dictGet s.uuids name).isSome = true
    · by_cases hc : (read_disabled s.disabledFile).contains name = true
      · have hst := enable_user_main_state name s h hc
        rw [hst.2, mem_read_disabled, mem_write_disabled, mem_setDiscard] at hn
        have : (enable_user name s).2.uuids = s.uuids := by
          rcases hart : s.configArt with _ | cfg0
          · rw [enable_user_corrupt name s h hc hart]
          · rw [enable_user_ok name s _ h hc hart]
        rw [this]
        exact hinv n hn.1
      · rw [enable_user_already name s h (Bool.eq_false_iff.2 hc)] at hn ⊢
        exact hinv n hn
    · rw [enable_user_notFound name s (dictGet_eq_none_of_not_isSome _ _ h)] at hn ⊢
      exact hinv n hn
  · intro n hn
    have hst := reset_traffic_frame name s
    rw [hst.2] at hn
    rw [hst.1]
    exact hinv n hn
  · intro h hmem
    have hst := delete_user_found_state name s h
    rw [hst.2, mem_read_disabled, mem_write_disabled, mem_setDiscard] at hmem
    exact hmem.2 rfl

/-- Witness for C8 at a concrete store whose disabled set is empty. -/
theorem c8_disabled_subset_witness :
    disabledSubset (disable_user "alice" stC9).2 ∧
    disabledSubset (delete_user "alice" stC9).2 := by
  have h := c8_disabled_subset env0 "u1" "t1" "carol" "alice" stC9
    (fun n hn => absurd hn (List.not_mem_nil n))
  exact ⟨h.2.2.1, h.2.1⟩


-- ### Claim C2 ###

theorem configClientsInv_of_rebuilt (s1 : St) (cfg0 : Config) (d : List String)
    (hmem : ∀ n, n ∈ read_disabled s1.disabledFile ↔ n ∈ d)
    (h : s1.configArt = some
      { cfg0 with
        inbounds := setFirstVlessClients cfg0.inbounds (activeClients s1.uuids d) }) :
    configClientsInv s1 := by
  intro cfg hcfg cs hcs
  rw [h] at hcfg
  have hc := Option.some.inj hcfg
  subst hc
  unfold firstVlessClients at hcs
  rw [find?_setFirstVlessClients] at hcs
  cases hf : cfg0.inbounds.find? (fun ib => ib.protocol == "vless") with
  | none =>
    rw [hf] at hcs
    simp at hcs
  | some ib =>
    rw [hf] at hcs
    simp only [Option.map_map, Option.map_some'] at hcs
    have hcs2 := Option.some.inj hcs
    simp only [Function.comp] at hcs2
    rw [← hcs2]
    exact activeClients_congr s1.uuids (fun n => (hmem n).symm)

/-- C2: every mutation keeps the downstream configuration synchronized: if
the parsed artifact's first vless inbound carried exactly the active-client
list before, then after a create, delete, disable or enable that completes
successfully it again carries exactly one client per credential-table user
not in the disabled set, with the user identifier and username. -/
theorem c2_config_sync (env : Env) (fu ft raw name : String) (s : St)
    (hinv : configClientsInv s) :
    (resOk (create_user env fu ft raw s).1 = true →
      configClientsInv (create_user env fu ft raw s).2) ∧
    (resOk (delete_user name s).1 = true →
      configClientsInv (delete_user name s).2) ∧
    (resOk (disable_user name s).1 = true →
      configClientsInv (disable_user name s).2) ∧
    (resOk (enable_user name s).1 = true →
      configClientsInv (enable_user name s).2) := by
  refine ⟨?_, ?_, ?_, ?_⟩
  · intro _
    by_cases h1 : pyStrip raw = ""
    · rw [create_user_invalid_state env fu ft raw s (Or.inl h1)]
      exact hinv
    by_cases h2 : (pyStrip raw).length > 32
    · rw [create_user_invalid_state env fu ft raw s (Or.inr (Or.inl h2))]
      exact hinv
    by_cases h3 : strippedAlnumCheck (pyStrip raw) = true
    case neg =>
      rw [create_user_invalid_state env fu ft raw s
          (Or.inr (Or.inr (Bool.eq_false_iff.2 h3)))]
      exact hinv
    by_cases h4 : (dictGet s.uuids (pyStrip raw)).isSome = true
    · rw [create_user_conflict env fu ft raw s h1 h2 h3 h4]
      exact hinv
    · have h4n := dictGet_eq_none_of_not_isSome _ _ h4
      cases hart : s.configArt with
      | none =>
        rw [create_user_corrupt env fu ft raw s h1 h2 h3 h4n hart]
        intro cfg hcfg
        exact absurd hcfg (by simp [hart])
      | some cfg0 =>
        obtain ⟨subs1, url, heq⟩ :=
          create_user_parseable_ok env fu ft raw s cfg0 h1 h2 h3 h4n hart
        rw [heq]
        exact configClientsInv_of_rebuilt _ cfg0 (read_disabled s.disabledFile)
          (fun n => Iff.rfl) rfl
  · intro _
    by_cases h : (dictGet s.uuids name).isSome = true
    · cases hart : s.configArt with
      | none =>
        rw [delete_user_corrupt name s h hart]
        intro cfg hcfg
        exact absurd hcfg (by simp [delete_user_core, hart])
      | some cfg0 =>
        rw [delete_user_ok name s cfg0 h hart]
        refine configClientsInv_of_rebuilt _ cfg0
          (setDiscard (read_disabled s.disabledFile) name) ?_ rfl
        intro n
        exact (mem_read_disabled n _).trans (mem_write_disabled n _)
    · rw [delete_user_notFound name s (dictGet_eq_none_of_not_isSome _ _ h)]
      exact hinv
  · intro _
    by_cases h : (dictGet s.uuids name).isSome = true
    · by_cases hc : (read_disabled s.disabledFile).contains name = true
      · rw [disable_user_already name s h hc]
        exact hinv
      · cases hart : s.configArt with
        | none =>
          rw [disable_user_corrupt name s h hc hart]
          intro cfg hcfg
          exact absurd hcfg (by simp [hart])
        | some cfg0 =>
          rw [disable_user_ok name s cfg0 h hc hart]
          refine configClientsInv_of_rebuilt _ cfg0
            (setAdd (read_disabled s.disabledFile) name) ?_ rfl
          intro n
          exact (mem_read_disabled n _).trans (mem_write_disabled n _)
    · rw [disable_user_notFound name s (dictGet_eq_none_of_not_isSome _ _ h)]
      exact hinv
  · intro _
    by_cases h : (dictGet s.uuids name).isSome = true
    · by_cases hc : (read_disabled s.disabledFile).contains name = true
      · cases hart : s.configArt with
        | none =>
          rw [enable_user_corrupt name s h hc hart]
          intro cfg hcfg
          exact absurd hcfg (by simp [hart])
        | some cfg0 =>
          rw [enable_user_ok name s cfg0 h hc hart]
          refine configClientsInv_of_rebuilt _ cfg0
            (setDiscard (read_disabled s.disabledFile) name) ?_ rfl
          intro n
          exact (mem_read_disabled n _).trans (mem_write_disabled n _)
      · rw [enable_user_already name s h (Bool.eq_false_iff.2 hc)]
        exact hinv
    · rw [enable_user_notFound name s (dictGet_eq_none_of_not_isSome _ _ h)]
      exact hinv

/-- Witness for C2: the empty store over the well-formed config satisfies
the invariant, and it is preserved by a successful create. -/
theorem c2_config_sync_witness :
    configClientsInv (create_user env0 "u1" "t1" "alice" st0).2 := by
  have hinv0 : configClientsInv st0 := by
    intro cfg hcfg cs hcs
    have hc := Option.some.inj hcfg
    subst hc
    have hcs2 : cs = [] := by
      have : firstVlessClients cfg0 = some [] := by decide
      rw [this] at hcs
      exact (Option.some.inj hcs).symm
    rw [hcs2]
    decide
  exact (c2_config_sync env0 "u1" "t1" "alice" "alice" st0 hinv0).1 (by decide)


-- ### Claim C6 ###

theorem one_lt_length_of_two_mem {α : Type} [DecidableEq α] {l : List α}
    {a b : α} (ha : a ∈ l) (hb : b ∈ l) (hne : a ≠ b) : 1 < l.length := by
  have hb2 : b ∈ l.erase a := (List.mem_erase_of_ne (Ne.symm hne)).2 hb
  have h1 : 0 < (l.erase a).length := List.length_pos_of_mem hb2
  have h2 : (l.erase a).length = l.length - 1 := List.length_erase_of_mem ha
  omega

/-- C6: revoking an existing user removes it from the credential table, the
disabled set, the token registry (its subscription descriptor), the traffic
ledger, the live stats and every historical record, and the rebuilt
configuration's vless client list no longer carries the user's identifier;
a repeated revoke fails with `NotFound` (404). -/
theorem c6_revoke_cascade (name uid : String) (s : St) (cfg0 : Config)
    (hu : dictGet s.uuids name = some uid)
    (hart : s.configArt = some cfg0)
    (huniq : ∀ p ∈ s.uuids, p.2 = uid → p.1 = name)
    (hsub1 : (s.subs.filter (fun p => strContains p.2 uid)).length ≤ 1) :
    (delete_user name s).1 = .ok (msg_deleted name) ∧
    dictGet (delete_user name s).2.uuids name = none ∧
    name ∉ read_disabled (delete_user name s).2.disabledFile ∧
    (∀ p ∈ (delete_user name s).2.subs, strContains p.2 uid = false) ∧
    (∃ t1, (delete_user name s).2.totalsArt = some t1 ∧
      dictGet t1 name = none) ∧
    (∀ st1, (delete_user name s).2.statsArt = some st1 →
      dictGet st1 name = none) ∧
    (∀ e ∈ ((delete_user name s).2.historyArt).getD [],
      dictGet e name = none) ∧
    (∀ cfg1, (delete_user name s).2.configArt = some cfg1 →
      ∀ cs, firstVlessClients cfg1 = some cs → ∀ c ∈ cs, c.id ≠ uid) ∧
    delete_user name (delete_user name s).2 =
      (.error .notFound, (delete_user name s).2) := by
  have husome : (dictGet s.uuids name).isSome = true := by
    rw [hu]
    rfl
  have heq := delete_user_ok name s cfg0 husome hart
  refine ⟨?_, ?_, ?_, ?_, ?_, ?_, ?_, ?_, ?_⟩
  · rw [heq]
  · rw [heq]
    exact dictGet_dictErase_self s.uuids name
  · rw [heq]
    show name ∉ read_disabled
      (write_disabled (setDiscard (read_disabled s.disabledFile) name))
    rw [mem_read_disabled, mem_write_disabled, mem_setDiscard]
    rintro ⟨_, hne⟩
    exact hne rfl
  · intro p hp
    have hsubs : (delete_user name s).2.subs =
        (match find_subscription_token s name with
         | some token => s.subs.filter (fun q => q.1 != token)
         | none => s.subs) := by
      rw [heq]
      rfl
    have hft : find_subscription_token s name =
        (s.subs.find? (fun q => strContains q.2 uid)).map (fun q => q.1) := by
      simp [find_subscription_token, hu]
    rw [hsubs, hft] at hp
    cases hfind : s.subs.find? (fun q => strContains q.2 uid) with
    | none =>
      rw [hfind] at hp
      simp only [Option.map_none'] at hp
      exact Bool.eq_false_iff.2 (List.find?_eq_none.1 hfind p hp)
    | some q =>
      rw [hfind] at hp
      simp only [Option.map_some'] at hp
      rw [List.mem_filter] at hp
      obtain ⟨hpmem, hpne⟩ := hp
      rw [Bool.eq_false_iff]
      intro hcontains
      have hq_mem : q ∈ s.subs := List.mem_of_find?_eq_some hfind
      have hq_pred : strContains q.2 uid = true := by
        have := List.find?_some hfind
        simpa using this
      have hpf : p ∈ s.subs.filter (fun r => strContains r.2 uid) :=
        List.mem_filter.2 ⟨hpmem, hcontains⟩
      have hqf : q ∈ s.subs.filter (fun r => strContains r.2 uid) :=
        List.mem_filter.2 ⟨hq_mem, hq_pred⟩
      have hne : p ≠ q := by
        intro hx
        rw [bne_iff_ne] at hpne
        exact hpne (by rw [hx])
      have := one_lt_length_of_two_mem hpf hqf hne
      omega
  · refine ⟨dictErase (readTotals s.totalsArt) name, ?_, ?_⟩
    · rw [heq]
      rfl
    · exact dictGet_dictErase_self _ name
  · intro st1 hst1
    rw [heq] at hst1
    have hst2 : (s.statsArt.map (fun st => dictErase st name)) = some st1 := hst1
    cases hs : s.statsArt with
    | none =>
      rw [hs] at hst2
      simp at hst2
    | some st0 =>
      rw [hs] at hst2
      simp only [Option.map_some'] at hst2
      rw [← Option.some.inj hst2]
      exact dictGet_dictErase_self st0 name
  · intro e he
    rw [heq] at he
    have he2 : e ∈ ((s.historyArt.map
        (fun h => h.map (fun e2 => dictErase e2 name))).getD []) := he
    cases hh : s.historyArt with
    | none =>
      rw [hh] at he2
      simp at he2
    | some hl =>
      rw [hh] at he2
      simp only [Option.map_some', Option.getD_some] at he2
      rw [List.mem_map] at he2
      obtain ⟨e0, _, he0⟩ := he2
      rw [← he0]
      exact dictGet_dictErase_self e0 name
  · intro cfg1 hcfg cs hcs c hc
    rw [heq] at hcfg
    have hc1 := Option.some.inj hcfg
    subst hc1
    unfold firstVlessClients at hcs
    rw [find?_setFirstVlessClients] at hcs
    cases hf : cfg0.inbounds.find? (fun ib => ib.protocol == "vless") with
    | none =>
      rw [hf] at hcs
      simp at hcs
    | some ib =>
      rw [hf] at hcs
      simp only [Option.map_map, Option.map_some'] at hcs
      have hcs2 := Option.some.inj hcs
      simp only [Function.comp] at hcs2
      rw [← hcs2] at hc
      unfold activeClients at hc
      rw [List.mem_map] at hc
      obtain ⟨p, hpmem, hpc⟩ := hc
      rw [List.mem_filter] at hpmem
      have hpin : p ∈ dictErase s.uuids name := hpmem.1
      unfold dictErase at hpin
      rw [List.mem_filter] at hpin
      intro hid
      have hp2 : p.2 = uid := by
        rw [← hpc] at hid
        simpa using hid
      exact (bne_iff_ne.1 hpin.2) (huniq p hpin.1 hp2)
  · apply delete_user_notFound
    rw [heq]
    exact dictGet_dictErase_self s.uuids name

/-- Witness for C6: deleting alice from the populated fixture reports
success, removes her credential and totals record, and a second delete
returns 404. -/
theorem c6_revoke_cascade_witness :
    (delete_user "alice" stC6).1 = .ok (msg_deleted "alice") ∧
    dictGet (delete_user "alice" stC6).2.uuids "alice" = none ∧
    "alice" ∉ read_disabled (delete_user "alice" stC6).2.disabledFile ∧
    (∃ t1, (delete_user "alice" stC6).2.totalsArt = some t1 ∧
      dictGet t1 "alice" = none) ∧
    delete_user "alice" (delete_user "alice" stC6).2 =
      (.error .notFound, (delete_user "alice" stC6).2) := by
  have h := c6_revoke_cascade "alice" "u1" stC6 cfgC6 (by decide) rfl
    (by decide) (by decide)
  exact ⟨h.1, h.2.1, h.2.2.1, h.2.2.2.2.1, h.2.2.2.2.2.2.2.2⟩

end XrayVpn
